import Mathlib

/-!
Verification of the workflow execution engine and retrieval pipeline of the
AI-workflow-builder backend (`app/runners/orchestrator.py`,
`app/services/kb_service.py`, `app/api/workflows.py`), shallowly embedded in
Lean 4.  Python dictionaries are modelled as functions `String → Option Val`,
text as `List Char` or `String`, external capabilities (ChromaDB, the
embedding service, the LLM provider, the stdlib `json.loads` validity check)
as explicit parameters, and exceptions as `Except` values.  Every embedded
operation is a total Lean function, mirroring the catch-all error handling of
the source.
-/

namespace AIWB

/-! ### String literals of the source, bound to names -/

def tyUserQuery : String := "userQuery"
def tyKnowledgeBase : String := "knowledgeBase"
def tyLLMEngine : String := "llmEngine"
def tyOutput : String := "output"

def keyUserInput : String := "user_input"
def keyKbResults : String := "kb_results"
def keyKbContext : String := "kb_context"
def keyLlmResponse : String := "llm_response"
def keyResponse : String := "response"

def fmtText : String := "text"
def fmtJson : String := "json"
def fmtMarkdown : String := "markdown"

def errNoNodes : String := "Workflow must have at least one node"
def errNoUserQuery : String := "Workflow must contain a User Query node"
def errNoOutput : String := "Workflow must contain an Output node"
def errNoEdges : String := "Workflow with multiple nodes must have connecting edges"
def errBadSource : String := "Edge references non-existent source node: "
def errBadTarget : String := "Edge references non-existent target node: "

/-! ### Graph data model (`app/models/workflow.py`)

A node has a string id, a type tag and an optional JSON `data` payload whose
`config` sub-dictionary may carry `top_k`, `customPrompt` and `format`
entries; `config = none` models a missing or non-dictionary config, matching
the `isinstance(config, dict)` guards of `_execute_node`. -/

structure NodeConfig where
  top_k : Option Nat
  customPrompt : Option String
  format : Option String
deriving Repr, DecidableEq

structure NodeData where
  config : Option NodeConfig
deriving Repr, DecidableEq

structure Node where
  id : String
  type : String
  data : Option NodeData
deriving Repr, DecidableEq

structure Edge where
  id : String
  source : String
  target : String
deriving Repr, DecidableEq

structure Workflow where
  id : String
  nodes : List Node
  edges : List Edge
deriving Repr, DecidableEq

/-! ### Graph validation (`WorkflowOrchestrator.validate_workflow`) -/

/-- The `for edge in workflow.edges` loop of `validate_workflow`: the first
edge whose source (checked first) or target is not a known node id raises. -/
def checkEdges (nodeIds : List String) : List Edge → Except String Unit
  | [] => .ok ()
  | e :: rest =>
    if e.source ∈ nodeIds then
      if e.target ∈ nodeIds then checkEdges nodeIds rest
      else .error (errBadTarget ++ e.target)
    else .error (errBadSource ++ e.source)

/-- `WorkflowOrchestrator.validate_workflow`, orchestrator.py lines 17-49.
`raise ValueError(msg)` is embedded as `.error msg`. -/
def validate_workflow (w : Workflow) : Except String Unit :=
  if w.nodes = [] then .error errNoNodes
  else if ¬ w.nodes.any (fun n => n.type = tyUserQuery) then .error errNoUserQuery
  else if ¬ w.nodes.any (fun n => n.type = tyOutput) then .error errNoOutput
  else if w.nodes.length > 1 ∧ w.edges.length = 0 then .error errNoEdges
  else checkEdges (w.nodes.map Node.id) w.edges

/-! ### Execution path building (`WorkflowOrchestrator._build_execution_path`) -/

/-- `edge_map = {edge.source: edge.target for edge in workflow.edges}`:
a Python dict comprehension keeps the LAST binding for a duplicated key,
hence the lookup scans the reversed list. -/
def edgeMapLookup (edges : List Edge) (src : String) : Option String :=
  (edges.reverse.find? (fun e => e.source = src)).map Edge.target

/-- `node_map = {node.id: node for node in workflow.nodes}` (last wins). -/
def nodeMapLookup (nodes : List Node) (nid : String) : Option Node :=
  nodes.reverse.find? (fun n => n.id = nid)

/-- The `while current.id in edge_map and len(path) < len(workflow.nodes)`
loop of `_build_execution_path`.  The loop is embedded with explicit fuel;
`_build_execution_path` supplies `w.nodes.length` fuel, which is enough
because every continuing iteration grows `path` by one and the guard stops
at `w.nodes.length`, so fuel never runs out before the guard does. -/
def buildLoop (w : Workflow) : Nat → Node → List Node → List String → List Node
  | 0, _, path, _ => path
  | fuel + 1, current, path, visited =>
    match edgeMapLookup w.edges current.id with
    | none => path
    | some nextId =>
      if path.length < w.nodes.length then
        if nextId ∈ visited then path
        else
          match nodeMapLookup w.nodes nextId with
          | some nxt => buildLoop w fuel nxt (path ++ [nxt]) (nextId :: visited)
          | none => path
      else path

/-- `WorkflowOrchestrator._build_execution_path`, orchestrator.py lines
77-115: start at the first `userQuery` node, follow edges, stop on a missing
outgoing edge, an already-visited target, a dangling target, or when the
path length reaches the node count; with no `userQuery` node fall back to
the full node list. -/
def build_execution_path (w : Workflow) : List Node :=
  match w.nodes.find? (fun n => n.type = tyUserQuery) with
  | none => w.nodes
  | some start => buildLoop w w.nodes.length start [start] [start.id]

/-! ### Execution context (`context: Dict[str, Any]`)

Context values are either strings or lists of knowledge-base search results
(the only two value shapes the orchestrator ever stores). -/

def Metadata : Type := List (String × String)

instance : DecidableEq Metadata :=
  inferInstanceAs (DecidableEq (List (String × String)))

/-- `app/schemas/document.py::KnowledgeBaseSearchResult` (id, content,
metadata, score); scores are embedded as rationals in place of floats. -/
structure KnowledgeBaseSearchResult where
  id : String
  content : String
  metadata : Metadata
  score : Rat
deriving DecidableEq

inductive Val where
  | str (s : String)
  | results (rs : List KnowledgeBaseSearchResult)
deriving DecidableEq

def Ctx : Type := String → Option Val

def ctxEmpty : Ctx := fun _ => none

/-- `context[k] = v` (dictionary update). -/
def ctxSet (c : Ctx) (k : String) (v : Val) : Ctx :=
  fun k2 => if k2 = k then some v else c k2

/-- `context.get(k, d)`. -/
def ctxGetD (c : Ctx) (k : String) (d : Val) : Val :=
  match c k with
  | some v => v
  | none => d

def emptyS : String := ""

/-- Python truthiness of a context value (`if query:`). -/
def pyTruthy : Val → Bool
  | .str s => !s.isEmpty
  | .results rs => !rs.isEmpty

def resultsRepr : String := "<KnowledgeBaseSearchResult list>"

/-- `str(value)`.  For a string value this is the string itself; the Python
`repr` of a result list is not reproduced (placeholder), as no run reaching
`str()` ever holds a non-string there. -/
def pyStr : Val → String
  | .str s => s
  | .results _ => resultsRepr

/-! ### Node configuration accessors (`_execute_node` lines 122-124) -/

def getConfig (node : Node) : Option NodeConfig :=
  node.data.bind NodeData.config

/-- `config.get('top_k', 5) if isinstance(config, dict) else 5`. -/
def nodeTopK (node : Node) : Nat :=
  ((getConfig node).bind NodeConfig.top_k).getD 5

/-- `config.get('customPrompt', '') if isinstance(config, dict) else ''`. -/
def nodeCustomPrompt (node : Node) : String :=
  ((getConfig node).bind NodeConfig.customPrompt).getD emptyS

/-- `config.get('format', 'text') if isinstance(config, dict) else 'text'`. -/
def nodeFormat (node : Node) : String :=
  ((getConfig node).bind NodeConfig.format).getD fmtText

/-! ### Prompt building (`app/utils/prompt.py::PromptBuilder.build_prompt`) -/

def phUserQuery : String := "{user_query}"
def phContext : String := "{context}"
def promptBase : String :=
  "You are a helpful AI assistant. Answer the user\x27s question based on the provided context."
def ctxHdr : String := "\n\nContext:\n"
def questionHdr : String := "\n\nUser Question: "
def answerHdr : String := "\n\nAnswer:"

def build_prompt (user_query context custom_prompt : String) : String :=
  if !custom_prompt.isEmpty then
    (custom_prompt.replace phUserQuery user_query).replace phContext context
  else if !context.isEmpty then
    promptBase ++ ctxHdr ++ context ++ questionHdr ++ user_query ++ answerHdr
  else
    promptBase ++ questionHdr ++ user_query ++ answerHdr

/-! ### JSON serialization (`json.dumps` on a one-key dictionary of a string,
with default separators and `ensure_ascii=True`) -/

def hexDigitChar (n : Nat) : Char :=
  if n < 10 then Char.ofNat (48 + n) else Char.ofNat (87 + n)

def hex4 (n : Nat) : String :=
  String.mk [hexDigitChar (n / 4096 % 16), hexDigitChar (n / 256 % 16),
             hexDigitChar (n / 16 % 16), hexDigitChar (n % 16)]

def uPrefix : String := "\\u"

/-- `\uXXXX` escape, as a surrogate pair above the basic plane. -/
def uEscape (n : Nat) : String :=
  if n < 65536 then uPrefix ++ hex4 n
  else uPrefix ++ hex4 (55296 + (n - 65536) / 1024) ++
       uPrefix ++ hex4 (56320 + (n - 65536) % 1024)

def escDquote : String := "\\\""
def escBackslash : String := "\\\\"
def escN : String := "\\n"
def escR : String := "\\r"
def escT : String := "\\t"
def escB : String := "\\b"
def escF : String := "\\f"

def jsonEscapeChar (c : Char) : String :=
  if c.toNat = 34 then escDquote
  else if c.toNat = 92 then escBackslash
  else if c.toNat = 10 then escN
  else if c.toNat = 13 then escR
  else if c.toNat = 9 then escT
  else if c.toNat = 8 then escB
  else if c.toNat = 12 then escF
  else if 32 ≤ c.toNat && c.toNat ≤ 126 then String.singleton c
  else uEscape c.toNat

def dquoteS : String := "\""

def jsonQuote (s : String) : String :=
  dquoteS ++ String.join (s.toList.map jsonEscapeChar) ++ dquoteS

def respOpen : String := "\x7b\"response\": "
def closeBrace : String := "\x7d"

/-- `json.dumps({"response": s})`. -/
def jsonWrapResponse (s : String) : String :=
  respOpen ++ jsonQuote s ++ closeBrace

/-! ### Node execution (`WorkflowOrchestrator._execute_node`, lines 117-198)

External capabilities are supplied through `Ext`: the knowledge-base search
call (`self.kb_service.search(...)`), the LLM token stream
(`self.llm_service.stream(...)` accumulated into a string), and the stdlib
`json.loads` validity verdict used by the output node.  A `.error` outcome
models the call raising an exception. -/

structure Ext where
  kbSearch : String → Val → Nat → Except String (List KnowledgeBaseSearchResult)
  llmStream : String → Except String (List String)
  jsonValid : String → Bool

def blankSep : String := "\n\n"
def errGenPrefix : String := "Error generating response: "
def hashMark : String := "#"
def mdHeading : String := "# Response\n\n"

/-- The prompt the `llmEngine` branch builds from the context. -/
def nodePrompt (node : Node) (ctx : Ctx) : String :=
  build_prompt (pyStr (ctxGetD ctx keyUserInput (.str emptyS)))
    (pyStr (ctxGetD ctx keyKbContext (.str emptyS)))
    (nodeCustomPrompt node)

/-- The `output` branch source value:
`context.get('llm_response', context.get('user_input', ''))`. -/
def outputSource (ctx : Ctx) : Val :=
  match ctx keyLlmResponse with
  | some v => v
  | none => ctxGetD ctx keyUserInput (.str emptyS)

/-- The output-format block of the `output` branch (lines 173-187).  A
non-string value makes both `json.loads` and `.startswith` raise, which the
surrounding `except` swallows, leaving the value unchanged. -/
def formatOutput (jsonValid : String → Bool) (fmt : String) : Val → Val
  | .results rs => .results rs
  | .str s =>
    if fmt = fmtJson then
      if jsonValid s then .str s else .str (jsonWrapResponse s)
    else if fmt = fmtMarkdown then
      if s.startsWith hashMark then .str s else .str (mdHeading ++ s)
    else .str s

/-- `WorkflowOrchestrator._execute_node`.  Total: every failure of an
external call is absorbed, mirroring the per-branch `except` handlers and
the outer catch-all that returns the context unchanged. -/
def execute_node (ext : Ext) (node : Node) (ctx : Ctx) (workflowId : String) : Ctx :=
  if node.type = tyUserQuery then ctx
  else if node.type = tyKnowledgeBase then
    if pyTruthy (ctxGetD ctx keyUserInput (.str emptyS)) then
      match ext.kbSearch workflowId (ctxGetD ctx keyUserInput (.str emptyS)) (nodeTopK node) with
      | .ok results =>
        ctxSet (ctxSet ctx keyKbResults (.results results)) keyKbContext
          (.str (String.intercalate blankSep (results.map KnowledgeBaseSearchResult.content)))
      | .error _ => ctxSet ctx keyKbContext (.str emptyS)
    else ctx
  else if node.type = tyLLMEngine then
    match ext.llmStream (nodePrompt node ctx) with
    | .ok tokens => ctxSet ctx keyLlmResponse (.str (String.join tokens))
    | .error e => ctxSet ctx keyLlmResponse (.str (errGenPrefix ++ e))
  else if node.type = tyOutput then
    ctxSet ctx keyResponse (formatOutput ext.jsonValid (nodeFormat node) (outputSource ctx))
  else ctx

/-! ### Workflow run and streaming (`run_workflow`, lines 51-75, and
`send_message.generate_stream`, `app/api/workflows.py` lines 432-455) -/

def noResponseMsg : String := "No response generated"
def errWorkflowPrefix : String := "Error executing workflow: "

def initCtx (userInput : String) : Ctx :=
  ctxSet ctxEmpty keyUserInput (.str userInput)

/-- `yield char for char in str(response)`: one token per character. -/
def charTokens (s : String) : List String :=
  s.toList.map (fun c => String.singleton c)

/-- `WorkflowOrchestrator._generate_response` (lines 200-204). -/
def generate_response (ctx : Ctx) : List String :=
  charTokens (pyStr (match ctx keyLlmResponse with
    | some v => v
    | none => ctxGetD ctx keyUserInput (.str noResponseMsg)))

/-- `WorkflowOrchestrator.run_workflow`, success path: build the path, fold
the node executor over it, then stream the response character by character. -/
def run_workflow (ext : Ext) (w : Workflow) (userInput : String) : List String :=
  let path := build_execution_path w
  let finalCtx := path.foldl (fun c n => execute_node ext n c w.id) (initCtx userInput)
  match finalCtx keyResponse with
  | some v => charTokens (pyStr v)
  | none => generate_response finalCtx

/-- `run_workflow` with its catch-all `except`: `pathExn = some e` models an
exception raised while building or executing the path (before any token is
yielded), which line 75 converts into the single token
`"Error executing workflow: " + str(e)`. -/
def run_workflow_stream (ext : Ext) (pathExn : Option String) (w : Workflow)
    (userInput : String) : List String :=
  match pathExn with
  | some e => [errWorkflowPrefix ++ e]
  | none => run_workflow ext w userInput

def sentinel : String := "data: [DONE]\n\n"
def tokenOpen : String := "data: \x7b\"token\": "
def nl2 : String := "\n\n"

/-- `f"data: {StreamToken(token=token).json()}\n\n"`. -/
def sseToken (t : String) : String :=
  tokenOpen ++ jsonQuote t ++ closeBrace ++ nl2

def errOpen : String := "data: \x7b\x27error\x27: \x27"
def errClose : String := "\x27\x7d\n\n"

/-- The error line of `generate_stream`. -/
def sseError (e : String) : String := errOpen ++ e ++ errClose

/-- The try/except/finally BODY of `send_message.generate_stream`
(workflows.py lines 436-453): formats each token from `run_workflow` as a
server-sent event; `iterExn = some e` models an exception raised while
iterating or persisting (after the given tokens were already consumed),
which the `except` turns into one error line; the `finally` appends the
`[DONE]` sentinel. -/
def generate_stream_body (runTokens : List String) (iterExn : Option String) : List String :=
  match iterExn with
  | none => runTokens.map sseToken ++ [sentinel]
  | some e => runTokens.map sseToken ++ [sseError e, sentinel]

def kbInitTypeError : String :=
  "TypeError: KnowledgeBaseService.__init__() missing 1 required positional argument: \x27db\x27"

/-- `KnowledgeBaseService.__init__` (kb_service.py line 21) declares a
required positional parameter `db`.  The argument list of a call is
embedded as an `Option` (`none` is an empty argument list); Python raises
`TypeError` before the body runs when the required argument is missing,
and with an argument the body never raises (`_initialize_safely` absorbs
every failure). -/
def KnowledgeBaseService_init : Option Unit → Except String Unit
  | some _ => .ok ()
  | none => .error kbInitTypeError

/-- `WorkflowOrchestrator.__init__` (orchestrator.py lines 12-15):
`LLMService()` and `PromptBuilder()` construct normally, but line 14 calls
`KnowledgeBaseService()` with an empty argument list, so constructing an
orchestrator always raises `TypeError`. -/
def WorkflowOrchestrator_init : Except String Unit :=
  KnowledgeBaseService_init none

/-- `send_message.generate_stream` in full (workflows.py lines 432-455):
line 433 constructs `WorkflowOrchestrator()` BEFORE the try/except/finally,
so an exception there propagates out of the generator (`.error`) and no
event — not even the sentinel — is emitted; only if construction succeeded
would the body stream run. -/
def generate_stream (runTokens : List String) (iterExn : Option String) :
    Except String (List String) :=
  match WorkflowOrchestrator_init with
  | .error e => .error e
  | .ok _ => .ok (generate_stream_body runTokens iterExn)

/-! ### Text chunking (`KnowledgeBaseService._chunk_text`, lines 205-213) -/

/-- Python `str.strip()` whitespace (ASCII and Unicode space characters). -/
def pyIsSpace (c : Char) : Bool :=
  decide ((9 ≤ c.toNat ∧ c.toNat ≤ 13) ∨ c.toNat = 32 ∨
    (28 ≤ c.toNat ∧ c.toNat ≤ 31) ∨ c.toNat = 133 ∨ c.toNat = 160 ∨
    c.toNat = 5760 ∨ (8192 ≤ c.toNat ∧ c.toNat ≤ 8202) ∨ c.toNat = 8232 ∨
    c.toNat = 8233 ∨ c.toNat = 8239 ∨ c.toNat = 8287 ∨ c.toNat = 12288)

/-- The `while start < len(text)` loop: append `text[start:end]` with
`end = start + chunk_size`, then `start = end - overlap`.  Embedded with
fuel; `chunkRaw` supplies `text.length + 1`, sufficient whenever
`overlap < size` since every iteration then advances `start` by at least
one. -/
def chunkLoopRaw (text : List Char) (size overlap : Nat) : Nat → Nat → List (List Char)
  | 0, _ => []
  | fuel + 1, start =>
    if start < text.length then
      (text.drop start).take size :: chunkLoopRaw text size overlap fuel (start + size - overlap)
    else []

def chunkRaw (text : List Char) (size overlap : Nat) : List (List Char) :=
  chunkLoopRaw text size overlap (text.length + 1) 0

/-- `KnowledgeBaseService._chunk_text` (default `chunk_size=1000`,
`overlap=200`): the sliding-window chunks with empty or whitespace-only
chunks dropped (`[c for c in chunks if c.strip()]`). -/
def chunk_text (text : List Char) (size overlap : Nat) : List (List Char) :=
  (chunkRaw text size overlap).filter (fun c => !(c.all pyIsSpace))

/-- Reconstruction of a text from overlapping chunks, as the specification
words it: consecutive chunks share `overlap` characters, so every chunk but
the last contributes its first `size - overlap` characters and the last
chunk is kept whole. -/
def reconOverlap (size overlap : Nat) : List (List Char) → List Char
  | [] => []
  | [c] => c
  | c :: rest => c.take (size - overlap) ++ reconOverlap size overlap rest

/-! ### Document ingestion (`KnowledgeBaseService.ingest_document`,
lines 90-130) -/

def docNotFoundMsg : String := "Document not found"
def skippedMsg : String := "Skipped ingestion (no vector DB or embedding service)"
def docPrefix : String := "Document "
def noTextSuffix : String := " has no extractable text"
def ingestedSuffix : String := " ingested successfully"

/-- Environment of one `ingest_document` call: whether the DB row exists,
whether the ChromaDB client and the embedding service initialized
(`_initialize_safely` leaves them `None` on failure), the text extracted
from the PDF (empty on extraction failure), and the outcomes of the
embedding call and of the `get_or_create_collection` + `collection.add`
index calls (collapsed into one, as an exception in either is handled
identically). -/
structure IngestEnv where
  docId : String
  docFound : Bool
  chromaAvail : Bool
  embedAvail : Bool
  text : List Char
  embedTexts : List (List Char) → Except String (List (List Rat))
  indexAdd : Except String Unit

/-- `KnowledgeBaseService.ingest_document`.  Returns the call outcome
(`.error e` models the method raising after `db.rollback()`) paired with
the final persisted `document.is_ingested` flag (initially `False` from
`upload_document`; set and committed only on full success). -/
def ingest_document (env : IngestEnv) : Except String String × Bool :=
  if !env.docFound then (.error docNotFoundMsg, false)
  else if !(env.chromaAvail && env.embedAvail) then (.ok skippedMsg, false)
  else if env.text.isEmpty then
    (.ok (docPrefix ++ env.docId ++ noTextSuffix), false)
  else
    match env.embedTexts (chunk_text env.text 1000 200) with
    | .error e => (.error e, false)
    | .ok _ =>
      match env.indexAdd with
      | .error e => (.error e, false)
      | .ok _ => (.ok (docPrefix ++ env.docId ++ ingestedSuffix), true)

/-! ### Knowledge-base search (`KnowledgeBaseService.search_documents`,
lines 132-158) -/

/-- The per-query slice of a ChromaDB query result (`results["ids"][0]`,
`results["documents"][0]`, ...).  `none` models a missing or falsy key
(`results.get(...)`); `ids` is indexed unconditionally, so a too-short
`ids` list models the `KeyError`/`IndexError` cases. -/
structure RawQueryResults where
  ids : List String
  documents : Option (List String)
  metadatas : Option (List Metadata)
  distances : Option (List Rat)

structure SearchEnv where
  chromaAvail : Bool
  embedAvail : Bool
  embedQuery : String → Except String (List Rat)
  queryIndex : String → List Rat → Nat → Except String RawQueryResults

/-- The `for i, doc in enumerate(results["documents"][0])` result-assembly
loop.  `none` models an indexing exception inside the loop (caught by the
surrounding `except`, which returns `[]`);
`score = 1.0 - results["distances"][0][i] if results.get("distances") else 0.0`. -/
def buildResultsGo (raw : RawQueryResults) : List String → Nat → Option (List KnowledgeBaseSearchResult)
  | [], _ => some []
  | doc :: rest, i => do
    let rid ← raw.ids[i]?
    let md ← match raw.metadatas with
      | none => some ([] : Metadata)
      | some ms => ms[i]?
    let sc ← match raw.distances with
      | none => some (0 : Rat)
      | some ds => (ds[i]?).map (fun d => 1 - d)
    let tail ← buildResultsGo raw rest (i + 1)
    some ({ id := rid, content := doc, metadata := md, score := sc } :: tail)

def buildResults (raw : RawQueryResults) : Option (List KnowledgeBaseSearchResult) :=
  match raw.documents with
  | none => some []
  | some docs => buildResultsGo raw docs 0

/-- `KnowledgeBaseService.search_documents`.  Total: both the unavailable
guard and the catch-all `except` yield `[]`. -/
def search_documents (env : SearchEnv) (query collection : String) (topK : Nat) :
    List KnowledgeBaseSearchResult :=
  if env.chromaAvail && env.embedAvail then
    match env.embedQuery query with
    | .error _ => []
    | .ok qe =>
      match env.queryIndex collection qe topK with
      | .error _ => []
      | .ok raw =>
        match buildResults raw with
        | some rs => rs
        | none => []
  else []

/-! ### Concrete instances used in theorems and witnesses -/

def helloS : String := "hello"
def boomS : String := "boom"
def widS : String := "w1"
def mysteryS : String := "mystery"

def wf1 : Workflow :=
  { id := widS, nodes := [⟨"1", tyUserQuery, none⟩, ⟨"2", tyOutput, none⟩],
    edges := [⟨"e1", "1", "2"⟩] }

def ctxHello : Ctx := initCtx helloS

/-- Backends that always succeed with empty output; `json.loads` rejects. -/
def extMock : Ext :=
  { kbSearch := fun _ _ _ => .ok [], llmStream := fun _ => .ok [],
    jsonValid := fun _ => false }

/-- Backends whose calls always raise. -/
def extFail : Ext :=
  { kbSearch := fun _ _ _ => .error boomS, llmStream := fun _ => .error boomS,
    jsonValid := fun _ => false }

def nodeKB : Node := ⟨"k", tyKnowledgeBase, none⟩
def nodeLLM : Node := ⟨"l", tyLLMEngine, none⟩
def nodeUnknown : Node := ⟨"u", mysteryS, none⟩
def nodeOutJson : Node :=
  ⟨"o", tyOutput, some ⟨some ⟨none, none, some fmtJson⟩⟩⟩

def collS : String := "col"
def docIdS : String := "d1"

/-- Ingestion environment with the vector index unavailable. -/
def ingestEnvDown : IngestEnv :=
  { docId := docIdS, docFound := true, chromaAvail := false, embedAvail := true,
    text := ['x'], embedTexts := fun _ => .ok [], indexAdd := .ok () }

/-- Ingestion environment whose embedding call raises. -/
def ingestEnvEmbedFail : IngestEnv :=
  { docId := docIdS, docFound := true, chromaAvail := true, embedAvail := true,
    text := ['x'], embedTexts := fun _ => .error boomS, indexAdd := .ok () }

/-- Search environment with the vector index unavailable. -/
def searchEnvDown : SearchEnv :=
  { chromaAvail := false, embedAvail := true,
    embedQuery := fun _ => .error boomS, queryIndex := fun _ _ _ => .error boomS }

/-- The two-character text whose trailing space defeats reconstruction. -/
def ceText : List Char := ['a', ' ']

def wText : List Char := ['a', 'b', 'c', 'd', 'e']

def wfDup : Workflow :=
  { id := "w", nodes := [⟨"1", tyUserQuery, none⟩, ⟨"2", tyUserQuery, none⟩, ⟨"3", tyOutput, none⟩],
    edges := [⟨"e1", "1", "2"⟩, ⟨"e2", "2", "3"⟩] }

def wfNoQuery : Workflow :=
  { id := "w", nodes := [⟨"3", tyOutput, none⟩], edges := [] }

def wfCyc : Workflow :=
  { id := "w", nodes := [⟨"1", tyUserQuery, none⟩, ⟨"2", tyOutput, none⟩],
    edges := [⟨"e1", "1", "2"⟩, ⟨"e2", "2", "1"⟩] }

/-! ## Theorems -/

/-- C3 counterexample: a structurally well-formed workflow containing TWO
`userQuery` nodes passes `validate_workflow` — validation only checks that
at least one `userQuery` node exists, so it does not fail for a graph that
lacks exactly one query-intake node. -/
theorem validate_accepts_duplicate_userQuery :
    (wfDup.nodes.filter (fun n => n.type = tyUserQuery)).length = 2 ∧
    validate_workflow wfDup = .ok () :=
  ⟨rfl, rfl⟩

/-- C3 (amended): `validate_workflow` fails with the distinct error
`"Workflow must contain a User Query node"` for every non-empty graph with
no `userQuery` node; a graph with two or more `userQuery` nodes is NOT
rejected on that ground. -/
theorem validate_missing_userQuery_rejected (w : Workflow)
    (hne : w.nodes ≠ [])
    (hq : ∀ n ∈ w.nodes, n.type ≠ tyUserQuery) :
    validate_workflow w = .error errNoUserQuery := by
  have h1 : w.nodes.any (fun n => n.type = tyUserQuery) = false := by
    rw [List.any_eq_false]
    intro x hx
    simpa using hq x hx
  unfold validate_workflow
  rw [if_neg hne, if_pos (by simp [h1])]

/-- Witness for the C3 amended theorem at a concrete one-node graph. -/
theorem validate_missing_userQuery_rejected_witness :
    wfNoQuery.nodes ≠ [] ∧ validate_workflow wfNoQuery = .error errNoUserQuery :=
  ⟨by decide, validate_missing_userQuery_rejected wfNoQuery (by decide) (by decide)⟩

/-! ### C4: the execution-path builder is bounded and repetition-free -/

theorem buildLoop_length (w : Workflow) :
    ∀ (fuel : Nat) (current : Node) (path : List Node) (visited : List String),
      path.length ≤ w.nodes.length →
      (buildLoop w fuel current path visited).length ≤ w.nodes.length := by
  intro fuel
  induction fuel with
  | zero => intro c p v h; simpa [buildLoop] using h
  | succ f ih =>
    intro c p v h
    unfold buildLoop
    cases hmatch : edgeMapLookup w.edges c.id with
    | none => simpa using h
    | some nid =>
      simp only []
      by_cases hlen : p.length < w.nodes.length
      · rw [if_pos hlen]
        by_cases hv : nid ∈ v
        · rw [if_pos hv]; exact h
        · rw [if_neg hv]
          cases hm : nodeMapLookup w.nodes nid with
          | none => exact h
          | some nxt =>
            exact ih _ _ _ (by simp only [List.length_append, List.length_cons,
              List.length_nil]; omega)
      · rw [if_neg hlen]; exact h

theorem buildLoop_nodup (w : Workflow) :
    ∀ (fuel : Nat) (current : Node) (path : List Node) (visited : List String),
      (path.map Node.id).Nodup →
      (∀ x ∈ path.map Node.id, x ∈ visited) →
      ((buildLoop w fuel current path visited).map Node.id).Nodup := by
  intro fuel
  induction fuel with
  | zero => intro c p v h _; simpa [buildLoop] using h
  | succ f ih =>
    intro c p v h hsub
    unfold buildLoop
    cases hmatch : edgeMapLookup w.edges c.id with
    | none => simpa using h
    | some nid =>
      simp only []
      by_cases hlen : p.length < w.nodes.length
      · rw [if_pos hlen]
        by_cases hv : nid ∈ v
        · rw [if_pos hv]; exact h
        · rw [if_neg hv]
          cases hm : nodeMapLookup w.nodes nid with
          | none => exact h
          | some nxt =>
            have hid : nxt.id = nid := by
              have := List.find?_some hm
              simpa using this
            apply ih
            · simp only [List.map_append, List.map_cons, List.map_nil]
              rw [List.nodup_append]
              refine ⟨h, by simp, ?_⟩
              intro x hx
              simp only [List.mem_singleton, hid]
              intro hxnid
              exact hv (hxnid ▸ hsub x hx)
            · intro x hx
              simp only [List.map_append, List.map_cons, List.map_nil,
                List.mem_append, List.mem_singleton] at hx
              cases hx with
              | inl hx => exact List.mem_cons_of_mem _ (hsub x hx)
              | inr hx => rw [hx, hid]; exact List.mem_cons_self _ _
      · rw [if_neg hlen]; exact h

/-- C4: for every graph whose node ids are distinct (the data-model
invariant), including graphs whose edges form a cycle, the (fuel-bounded,
hence terminating) `_build_execution_path` returns a path that never
exceeds the number of nodes in the graph and never visits a node twice. -/
theorem build_execution_path_bounded (w : Workflow)
    (h : (w.nodes.map Node.id).Nodup) :
    (build_execution_path w).length ≤ w.nodes.length ∧
    ((build_execution_path w).map Node.id).Nodup := by
  unfold build_execution_path
  cases hf : w.nodes.find? (fun n => n.type = tyUserQuery) with
  | none => exact ⟨le_refl _, h⟩
  | some start =>
    have hmem : start ∈ w.nodes := List.mem_of_find?_eq_some hf
    have hlen1 : 1 ≤ w.nodes.length := List.length_pos_of_mem hmem
    refine ⟨?_, ?_⟩
    · exact buildLoop_length w _ start [start] [start.id] (by simpa using hlen1)
    · exact buildLoop_nodup w _ start [start] [start.id] (by simp) (by simp)

/-- Witness for C4 at a concrete two-node cyclic graph (1 → 2 → 1). -/
theorem build_execution_path_bounded_witness :
    (wfCyc.nodes.map Node.id).Nodup ∧
    ((build_execution_path wfCyc).length ≤ wfCyc.nodes.length ∧
     ((build_execution_path wfCyc).map Node.id).Nodup) :=
  ⟨by decide, build_execution_path_bounded wfCyc (by decide)⟩

/-! ### C1: the two-node "hello" run crashes at orchestrator construction -/

/-- C1 (code bug): on the valid two-node graph `userQuery(1) → output(2)`
(default configuration) with user message `"hello"`, the streaming
endpoint yields NO tokens at all: `WorkflowOrchestrator()` always raises
`TypeError` (orchestrator.py line 14 calls `KnowledgeBaseService()`
without the `db` argument kb_service.py line 21 requires), so
`generate_stream` fails before its first yield — even though
`run_workflow` itself, were construction possible, would stream exactly
`"hello"` (one character per token, the output node copying the user
input into the response) for every external backend, as the claim
intends. -/
theorem two_node_run_crashes_before_streaming (ext : Ext) :
    validate_workflow wf1 = .ok () ∧
    generate_stream (run_workflow ext wf1 helloS) none = .error kbInitTypeError ∧
    String.join (run_workflow ext wf1 helloS) = helloS :=
  ⟨rfl, rfl, rfl⟩

/-! ### C2: node execution is total and degrades on failure -/

/-- C2: `_execute_node` (a total function in this embedding, mirroring the
catch-all handlers that never let an exception escape) degrades on failure:
a node whose type is none of the four known types returns the context
unchanged; a failed knowledge-base search sets exactly the empty
`kb_context`; a failed generation sets `llm_response` to the explanatory
error string. -/
theorem execute_node_never_raises_degrades (ext : Ext) (node : Node) (ctx : Ctx)
    (wid : String) :
    (node.type ≠ tyUserQuery → node.type ≠ tyKnowledgeBase → node.type ≠ tyLLMEngine →
      node.type ≠ tyOutput → execute_node ext node ctx wid = ctx)
    ∧ (∀ e, node.type = tyKnowledgeBase →
        pyTruthy (ctxGetD ctx keyUserInput (.str emptyS)) = true →
        ext.kbSearch wid (ctxGetD ctx keyUserInput (.str emptyS)) (nodeTopK node) = .error e →
        execute_node ext node ctx wid = ctxSet ctx keyKbContext (.str emptyS))
    ∧ (∀ e, node.type = tyLLMEngine →
        ext.llmStream (nodePrompt node ctx) = .error e →
        execute_node ext node ctx wid = ctxSet ctx keyLlmResponse (.str (errGenPrefix ++ e))) := by
  refine ⟨?_, ?_, ?_⟩
  · intro h1 h2 h3 h4
    unfold execute_node
    rw [if_neg h1, if_neg h2, if_neg h3, if_neg h4]
  · intro e ht htr hs
    unfold execute_node
    rw [if_neg (by rw [ht]; decide), if_pos ht, if_pos htr, hs]
  · intro e ht hs
    unfold execute_node
    rw [if_neg (by rw [ht]; decide), if_neg (by rw [ht]; decide), if_pos ht, hs]

/-- Witness for C2: an unknown node type passes the context through; with
always-failing backends the knowledge-base node degrades to empty
`kb_context` and the generation node to the error string. -/
theorem execute_node_never_raises_degrades_witness :
    execute_node extFail nodeUnknown ctxHello widS = ctxHello ∧
    execute_node extFail nodeKB ctxHello widS = ctxSet ctxHello keyKbContext (.str emptyS) ∧
    execute_node extFail nodeLLM ctxHello widS =
      ctxSet ctxHello keyLlmResponse (.str (errGenPrefix ++ boomS)) :=
  ⟨(execute_node_never_raises_degrades extFail nodeUnknown ctxHello widS).1
      (by decide) (by decide) (by decide) (by decide),
   (execute_node_never_raises_degrades extFail nodeKB ctxHello widS).2.1
      boomS rfl rfl rfl,
   (execute_node_never_raises_degrades extFail nodeLLM ctxHello widS).2.2
      boomS rfl rfl⟩

/-! ### C10: node execution preserves existing context entries -/

theorem ctxSet_ne {c : Ctx} {a k : String} {v : Val} (h : k ≠ a) :
    ctxSet c a v k = c k := by
  unfold ctxSet
  rw [if_neg h]

theorem ctxSet_isSome (c : Ctx) (a k : String) (v : Val) (h : (c k).isSome) :
    ((ctxSet c a v) k).isSome := by
  unfold ctxSet
  by_cases hk : k = a <;> simp [hk, h]

/-- Every branch of `_execute_node` returns the context either unchanged or
extended on its own output keys only. -/
theorem execute_node_cases (ext : Ext) (node : Node) (ctx : Ctx) (wid : String) :
    execute_node ext node ctx wid = ctx ∨
    (∃ v, execute_node ext node ctx wid = ctxSet ctx keyKbContext v) ∨
    (∃ v u, execute_node ext node ctx wid = ctxSet (ctxSet ctx keyKbResults u) keyKbContext v) ∨
    (∃ v, execute_node ext node ctx wid = ctxSet ctx keyLlmResponse v) ∨
    (∃ v, execute_node ext node ctx wid = ctxSet ctx keyResponse v) := by
  unfold execute_node
  by_cases h1 : node.type = tyUserQuery
  · rw [if_pos h1]; left; rfl
  · rw [if_neg h1]
    by_cases h2 : node.type = tyKnowledgeBase
    · rw [if_pos h2]
      by_cases hq : pyTruthy (ctxGetD ctx keyUserInput (.str emptyS)) = true
      · rw [if_pos hq]
        cases hs : ext.kbSearch wid (ctxGetD ctx keyUserInput (.str emptyS)) (nodeTopK node) with
        | ok results => right; right; left; exact ⟨_, _, rfl⟩
        | error e => right; left; exact ⟨_, rfl⟩
      · rw [if_neg hq]; left; rfl
    · rw [if_neg h2]
      by_cases h3 : node.type = tyLLMEngine
      · rw [if_pos h3]
        cases hs : ext.llmStream (nodePrompt node ctx) with
        | ok toks => right; right; right; left; exact ⟨_, rfl⟩
        | error e => right; right; right; left; exact ⟨_, rfl⟩
      · rw [if_neg h3]
        by_cases h4 : node.type = tyOutput
        · rw [if_pos h4]; right; right; right; right; exact ⟨_, rfl⟩
        · rw [if_neg h4]; left; rfl

/-- C10: for every node (known or unknown type) and every context,
`_execute_node` maps `user_input` to the same value as before, and never
removes an existing context entry. -/
theorem execute_node_preserves_context (ext : Ext) (node : Node) (ctx : Ctx)
    (wid : String) :
    execute_node ext node ctx wid keyUserInput = ctx keyUserInput ∧
    ∀ k, (ctx k).isSome → ((execute_node ext node ctx wid) k).isSome := by
  have hc := execute_node_cases ext node ctx wid
  constructor
  · rcases hc with h | ⟨v, h⟩ | ⟨v, u, h⟩ | ⟨v, h⟩ | ⟨v, h⟩
    · rw [h]
    · rw [h, ctxSet_ne (by decide)]
    · rw [h, ctxSet_ne (by decide), ctxSet_ne (by decide)]
    · rw [h, ctxSet_ne (by decide)]
    · rw [h, ctxSet_ne (by decide)]
  · intro k hk
    rcases hc with h | ⟨v, h⟩ | ⟨v, u, h⟩ | ⟨v, h⟩ | ⟨v, h⟩ <;> rw [h]
    exacts [hk, ctxSet_isSome _ _ _ _ hk,
      ctxSet_isSome _ _ _ _ (ctxSet_isSome _ _ _ _ hk),
      ctxSet_isSome _ _ _ _ hk, ctxSet_isSome _ _ _ _ hk]

/-- Witness for C10 at a concrete knowledge-base node execution. -/
theorem execute_node_preserves_context_witness :
    ((ctxHello keyUserInput).isSome) ∧
    ((execute_node extFail nodeKB ctxHello widS) keyUserInput).isSome :=
  ⟨by decide,
   (execute_node_preserves_context extFail nodeKB ctxHello widS).2
     keyUserInput (by decide)⟩

/-! ### C8: output-node formatting -/

/-- C8: an output node sets `response` from `llm_response` (or, absent
that, `user_input`): for format `json` the text is wrapped as
`json.dumps({"response": text})` unless `json.loads` already accepts it;
for `markdown` a heading is prefixed unless the text starts with `#`; any
other format leaves the text unchanged. -/
theorem execute_node_output_format (ext : Ext) (node : Node) (ctx : Ctx)
    (wid : String) (s : String) (ht : node.type = tyOutput)
    (hs : outputSource ctx = .str s) :
    execute_node ext node ctx wid = ctxSet ctx keyResponse (.str (
      if nodeFormat node = fmtJson then
        (if ext.jsonValid s then s else jsonWrapResponse s)
      else if nodeFormat node = fmtMarkdown then
        (if s.startsWith hashMark then s else mdHeading ++ s)
      else s)) := by
  unfold execute_node
  rw [if_neg (by rw [ht]; decide), if_neg (by rw [ht]; decide),
    if_neg (by rw [ht]; decide), if_pos ht]
  rw [hs]
  simp only [formatOutput]
  split_ifs <;> rfl

/-- Witness for C8: a JSON-format output node wraps the user input. -/
theorem execute_node_output_format_witness :
    outputSource ctxHello = .str helloS ∧
    execute_node extMock nodeOutJson ctxHello widS = ctxSet ctxHello keyResponse (.str (
      if nodeFormat nodeOutJson = fmtJson then
        (if extMock.jsonValid helloS then helloS else jsonWrapResponse helloS)
      else if nodeFormat nodeOutJson = fmtMarkdown then
        (if helloS.startsWith hashMark then helloS else mdHeading ++ helloS)
      else helloS)) :=
  ⟨rfl, execute_node_output_format extMock nodeOutJson ctxHello widS helloS rfl rfl⟩

/-! ### C7: the SSE stream always ends with the completion sentinel -/

theorem getLast?_app_singleton (l : List String) (a : String) :
    (l ++ [a]).getLast? = some a := by
  induction l with
  | nil => rfl
  | cons x xs ih =>
    rw [List.cons_append]
    cases hxs : xs ++ [a] with
    | nil => exact absurd hxs (by simp)
    | cons y ys => rw [List.getLast?_cons_cons, ← hxs, ih]

theorem generate_stream_body_last (ts : List String) (exn : Option String) :
    (generate_stream_body ts exn).getLast? = some sentinel := by
  cases exn with
  | none => exact getLast?_app_singleton _ _
  | some e =>
    show ((ts.map sseToken) ++ [sseError e, sentinel]).getLast? = some sentinel
    rw [show [sseError e, sentinel] = [sseError e] ++ [sentinel] from rfl,
      ← List.append_assoc]
    exact getLast?_app_singleton _ _

/-- C7 (code bug): the server-sent-event stream of
`send_message.generate_stream` is in fact NEVER terminated by the `[DONE]`
sentinel: for every run-token list and iteration outcome, the generator
raises `TypeError` at the orchestrator construction on workflows.py line
433, before its try/finally, so no event is emitted at all — even though
the try/finally body by itself would end every stream, success or failure,
with the sentinel, as the claim intends. -/
theorem stream_never_reaches_sentinel (runTokens : List String) (iterExn : Option String) :
    generate_stream runTokens iterExn = .error kbInitTypeError ∧
    (generate_stream_body runTokens iterExn).getLast? = some sentinel :=
  ⟨rfl, generate_stream_body_last runTokens iterExn⟩

/-! ### C9: knowledge-base search degrades to the empty list -/

/-- C9: for every query, collection name and topK, `search_documents` (a
total function in this embedding, mirroring its guard and catch-all
`except`) returns `[]` when the index or embedding backend is unavailable,
when embedding the query raises, and when the index query raises. -/
theorem search_documents_never_raises (env : SearchEnv) (q coll : String) (k : Nat) :
    ((env.chromaAvail && env.embedAvail) = false → search_documents env q coll k = [])
    ∧ (∀ e, env.embedQuery q = .error e → search_documents env q coll k = [])
    ∧ (∀ qe e, env.embedQuery q = .ok qe → env.queryIndex coll qe k = .error e →
        search_documents env q coll k = []) := by
  refine ⟨?_, ?_, ?_⟩
  · intro h
    unfold search_documents
    rw [if_neg (by simp [h])]
  · intro e he
    unfold search_documents
    by_cases hav : (env.chromaAvail && env.embedAvail) = true
    · rw [if_pos hav, he]
    · rw [if_neg hav]
  · intro qe e hok herr
    unfold search_documents
    by_cases hav : (env.chromaAvail && env.embedAvail) = true
    · rw [if_pos hav, hok]
      show (match env.queryIndex coll qe k with
        | Except.error _ => []
        | Except.ok raw =>
          match buildResults raw with
          | some rs => rs
          | none => []) = []
      rw [herr]
    · rw [if_neg hav]

/-- Witness for C9 with the index client unavailable. -/
theorem search_documents_never_raises_witness :
    search_documents searchEnvDown helloS collS 5 = [] :=
  (search_documents_never_raises searchEnvDown helloS collS 5).1 rfl

/-! ### C6: ingestion atomicity -/

/-- C6 counterexample: with the vector index unavailable (and a findable
document with extractable text), `ingest_document` does NOT fail as a
whole — it returns a success outcome with a "skipped" message (the
document is still not marked ingested). -/
theorem ingest_unavailable_returns_ok :
    ingest_document ingestEnvDown = (.ok skippedMsg, false) := rfl

/-- C6 (amended): the document is marked ingested only when the document
exists, both backends are available, text was extracted, and the embedding
and index calls both succeed; a failing embedding or index call makes the
whole operation fail with the document left unmarked; an unavailable
backend yields a skipped-success outcome (not a failure), likewise
unmarked. -/
theorem ingest_document_atomicity (env : IngestEnv) :
    ((ingest_document env).2 = true →
      env.docFound = true ∧ env.chromaAvail = true ∧ env.embedAvail = true ∧
      env.text ≠ [] ∧
      (∃ embs, env.embedTexts (chunk_text env.text 1000 200) = .ok embs) ∧
      env.indexAdd = .ok ())
    ∧ (∀ e, env.docFound = true → env.chromaAvail = true → env.embedAvail = true →
        env.text ≠ [] → env.embedTexts (chunk_text env.text 1000 200) = .error e →
        ingest_document env = (.error e, false))
    ∧ (∀ e embs, env.docFound = true → env.chromaAvail = true → env.embedAvail = true →
        env.text ≠ [] → env.embedTexts (chunk_text env.text 1000 200) = .ok embs →
        env.indexAdd = .error e → ingest_document env = (.error e, false))
    ∧ (env.docFound = true → (env.chromaAvail = false ∨ env.embedAvail = false) →
        ingest_document env = (.ok skippedMsg, false)) := by
  refine ⟨?_, ?_, ?_, ?_⟩
  · intro h2
    unfold ingest_document at h2
    cases hd : env.docFound with
    | false => simp [hd] at h2
    | true =>
      cases hc : env.chromaAvail with
      | false => simp [hd, hc] at h2
      | true =>
        cases he : env.embedAvail with
        | false => simp [hd, hc, he] at h2
        | true =>
          rw [hd, hc, he] at h2
          rw [if_neg (by decide), if_neg (by decide)] at h2
          by_cases htext : env.text.isEmpty = true
          · rw [if_pos htext] at h2
            exact absurd h2 (by simp)
          · rw [if_neg htext] at h2
            cases hm : env.embedTexts (chunk_text env.text 1000 200) with
            | error e => rw [hm] at h2; exact absurd h2 (by simp)
            | ok embs =>
              rw [hm] at h2
              cases ha : env.indexAdd with
              | error e => rw [ha] at h2; exact absurd h2 (by simp)
              | ok u =>
                refine ⟨rfl, rfl, rfl, ?_, ⟨embs, rfl⟩, ?_⟩
                · rw [List.isEmpty_iff] at htext
                  exact htext
                · cases u; rfl
  · intro e hd hc he ht hm
    unfold ingest_document
    rw [if_neg (by simp [hd]), if_neg (by simp [hc, he]),
      if_neg (by simp [List.isEmpty_iff, ht]), hm]
  · intro e embs hd hc he ht hm ha
    unfold ingest_document
    rw [if_neg (by simp [hd]), if_neg (by simp [hc, he]),
      if_neg (by simp [List.isEmpty_iff, ht]), hm, ha]
  · intro hd hav
    unfold ingest_document
    rw [if_neg (by simp [hd]), if_pos (by rcases hav with h | h <;> simp [h])]

/-- Witness for C6 at a concrete environment whose embedding call raises. -/
theorem ingest_document_atomicity_witness :
    ingest_document ingestEnvEmbedFail = (.error boomS, false) :=
  (ingest_document_atomicity ingestEnvEmbedFail).2.1 boomS rfl rfl rfl
    (by decide) rfl

/-! ### C5: chunking is a bounded sliding window; reconstruction fails
once whitespace-only chunks are dropped -/

/-- Every chunk the loop produces has length at most `size`. -/
theorem chunkLoopRaw_length_le (text : List Char) (size overlap : Nat) :
    ∀ (fuel start : Nat) (c : List Char),
      c ∈ chunkLoopRaw text size overlap fuel start → c.length ≤ size := by
  intro fuel
  induction fuel with
  | zero => intro start c hc; simp [chunkLoopRaw] at hc
  | succ f ih =>
    intro start c hc
    unfold chunkLoopRaw at hc
    by_cases hs : start < text.length
    · rw [if_pos hs] at hc
      rcases List.mem_cons.mp hc with h | h
      · subst h
        simp only [List.length_take]
        omega
      · exact ih _ c h
    · rw [if_neg hs] at hc
      simp at hc

/-- Stride: the `i`-th chunk starts at `start + i * (size - overlap)`,
i.e. `start_next = start_current + size - overlap`. -/
theorem chunkLoopRaw_stride (text : List Char) (size overlap : Nat)
    (hos : overlap ≤ size) :
    ∀ (fuel start i : Nat) (c : List Char),
      (chunkLoopRaw text size overlap fuel start)[i]? = some c →
      c = (text.drop (start + i * (size - overlap))).take size := by
  intro fuel
  induction fuel with
  | zero => intro start i c hc; simp [chunkLoopRaw] at hc
  | succ f ih =>
    intro start i c hc
    unfold chunkLoopRaw at hc
    by_cases hs : start < text.length
    · rw [if_pos hs] at hc
      cases i with
      | zero =>
        rw [List.getElem?_cons_zero] at hc
        simp only [Nat.zero_mul, Nat.add_zero]
        exact (Option.some_inj.mp hc).symm
      | succ j =>
        rw [List.getElem?_cons_succ] at hc
        rw [ih (start + size - overlap) j c hc]
        congr 2
        rw [Nat.add_sub_assoc hos, Nat.succ_mul]
        ring
    · rw [if_neg hs] at hc
      simp at hc

theorem chunkLoopRaw_cons (text : List Char) (size overlap fuel start : Nat)
    (hf : 0 < fuel) (hs : start < text.length) :
    chunkLoopRaw text size overlap fuel start =
      (text.drop start).take size ::
        chunkLoopRaw text size overlap (fuel - 1) (start + size - overlap) := by
  cases fuel with
  | zero => omega
  | succ f =>
    show (if start < text.length then
        (text.drop start).take size ::
          chunkLoopRaw text size overlap f (start + size - overlap)
      else []) = _
    rw [if_pos hs, Nat.add_sub_cancel]

theorem chunkLoopRaw_nil (text : List Char) (size overlap fuel start : Nat)
    (hs : ¬ start < text.length) :
    chunkLoopRaw text size overlap fuel start = [] := by
  cases fuel with
  | zero => rfl
  | succ f =>
    unfold chunkLoopRaw
    rw [if_neg hs]

theorem reconOverlap_cons (size overlap : Nat) (c : List Char)
    (l : List (List Char)) (hl : l ≠ []) :
    reconOverlap size overlap (c :: l) =
      c.take (size - overlap) ++ reconOverlap size overlap l := by
  cases l with
  | nil => exact absurd rfl hl
  | cons b t => rfl

/-- With enough fuel, the raw (unfiltered) chunks reconstruct the text
suffix from `start`. -/
theorem chunkLoopRaw_recon (text : List Char) (size overlap : Nat)
    (ho : overlap < size) :
    ∀ (fuel start : Nat), start < text.length → text.length - start ≤ fuel →
      reconOverlap size overlap (chunkLoopRaw text size overlap fuel start) =
        text.drop start := by
  intro fuel
  induction fuel with
  | zero => intro start h1 h2; omega
  | succ f ih =>
    intro start h1 h2
    rw [chunkLoopRaw_cons text size overlap (f + 1) start (by omega) h1]
    simp only [Nat.add_sub_cancel]
    by_cases h3 : start + size - overlap < text.length
    · have hf : 0 < f := by omega
      have hrest := ih (start + size - overlap) h3 (by omega)
      have hlne : chunkLoopRaw text size overlap f (start + size - overlap) ≠ [] := by
        rw [chunkLoopRaw_cons text size overlap f _ hf h3]
        simp
      rw [reconOverlap_cons _ _ _ _ hlne, hrest, List.take_take,
        Nat.min_eq_left (Nat.sub_le size overlap),
        show start + size - overlap = start + (size - overlap) from
          Nat.add_sub_assoc (le_of_lt ho) start,
        List.drop_take_append_drop]
    · rw [chunkLoopRaw_nil text size overlap f _ h3]
      show (text.drop start).take size = text.drop start
      rw [List.take_of_length_le]
      rw [List.length_drop]
      omega

/-- C5 (amended): for every non-empty text and `overlap < size`, the raw
chunks form the sliding window `start_next = start_current + size -
overlap`, every produced chunk has length at most `size`, and the
overlap-aware concatenation of `_chunk_text`'s output reconstructs the
original text PROVIDED no raw chunk is empty or whitespace-only (the
filter then drops nothing; a dropped chunk leaves a gap — see the
counterexample). -/
theorem chunk_text_sliding_window (text : List Char) (size overlap : Nat)
    (ho : overlap < size) (hne : text ≠ []) :
    (∀ i c, (chunkRaw text size overlap)[i]? = some c →
        c = (text.drop (i * (size - overlap))).take size)
    ∧ (∀ c ∈ chunk_text text size overlap, c.length ≤ size)
    ∧ ((∀ c ∈ chunkRaw text size overlap, !(c.all pyIsSpace)) →
        reconOverlap size overlap (chunk_text text size overlap) = text) := by
  refine ⟨?_, ?_, ?_⟩
  · intro i c hc
    have := chunkLoopRaw_stride text size overlap (le_of_lt ho) _ 0 i c hc
    simpa using this
  · intro c hc
    exact chunkLoopRaw_length_le text size overlap _ _ c (List.mem_of_mem_filter hc)
  · intro hall
    have hfe : chunk_text text size overlap = chunkRaw text size overlap :=
      List.filter_eq_self.mpr hall
    rw [hfe]
    unfold chunkRaw
    have h0 : 0 < text.length := List.length_pos.mpr hne
    have := chunkLoopRaw_recon text size overlap ho (text.length + 1) 0 h0 (by omega)
    simpa using this

/-- C5 counterexample: for the non-empty text `"a "` with `size = 1`,
`overlap = 0` (so `overlap < size`), the whitespace-only second chunk is
dropped and the overlap-aware concatenation of the chunks is `"a"`, not
the original text — reconstruction fails as soon as a chunk is dropped. -/
theorem chunk_reconstruction_counterexample :
    ceText ≠ [] ∧ (0 : Nat) < 1 ∧
    reconOverlap 1 0 (chunk_text ceText 1 0) ≠ ceText := by decide

/-- Witness for the C5 amended theorem on `"abcde"`, `size = 3`,
`overlap = 1`. -/
theorem chunk_text_sliding_window_witness :
    (1 : Nat) < 3 ∧ wText ≠ [] ∧
    reconOverlap 3 1 (chunk_text wText 3 1) = wText :=
  ⟨by decide, by decide,
   (chunk_text_sliding_window wText 3 1 (by decide) (by decide)).2.2 (by decide)⟩

end AIWB
